import Mathlib

/-!
Verification of the `gaia-agent` repository: a shallow embedding of
`src/gaia_agent/agent.py` (the agent loop and tool dispatch) and
`src/gaia_agent/tools.py` (the tool functions), together with proofs of the
behavioral properties stated in the specification.

External collaborators (the OpenAI chat endpoint, `requests`, `BeautifulSoup`,
`pandas`, `youtube_transcript_api`, `json`, and the file system) are modelled
as oracle parameters: functions passed to the embedded definitions, quantified
over in the theorems.  Python strings are modelled as Lean `String`s, slicing
operating on the code-point list `String.data`.  Python functions that can
raise are embedded with result type `Except String α`, where `Except.error e`
models an exception (carrying its message) propagating out of the function.
-/

namespace GaiaAgent

/-- Python slice `s[:n]` on a `str` (by code points). -/
def pyTake (s : String) (n : Nat) : String :=
  String.mk (s.data.take n)

/-- Python slice `s[n:]` on a `str` (by code points). -/
def pyDrop (s : String) (n : Nat) : String :=
  String.mk (s.data.drop n)

/-- Python `str.split(sep)` for a one-character separator, on code-point
lists: keeps empty fields, never returns an empty list. -/
def splitChar (c : Char) : List Char → List (List Char)
  | [] => [[]]
  | x :: xs =>
    if x = c then [] :: splitChar c xs
    else
      match splitChar c xs with
      | [] => [[x]]
      | y :: ys => (x :: y) :: ys

/-- Python `str.split(sep)` for a one-character separator. -/
def pySplit (s : String) (c : Char) : List String :=
  (splitChar c s.data).map String.mk

/-- Split at the first occurrence of `sep`: the parts before and after it,
`none` when `sep` does not occur (Python `str.partition`, by occurrence). -/
def splitFirstOpt (sep : Char) : List Char → Option (List Char × List Char)
  | [] => none
  | c :: cs =>
    if c = sep then some ([], cs)
    else (splitFirstOpt sep cs).map (fun p => (c :: p.1, p.2))

/-- Python `str.startswith(p)`, on code-point lists. -/
def isPrefixL : List Char → List Char → Bool
  | [], _ => true
  | _ :: _, [] => false
  | a :: as, b :: bs => a = b && isPrefixL as bs

/-- Python `str.startswith(p)`. -/
def pyStartsWith (s p : String) : Bool :=
  isPrefixL p.data s.data

/-- Python `str.endswith(c)` for a one-character suffix. -/
def pyEndsWithChar (s : String) (c : Char) : Bool :=
  match s.data.getLast? with
  | some x => x = c
  | none => false

/-- A JSON value, as produced by `json.loads` on a tool-call argument payload
and consumed by `json.dumps` on a tool result.  Numbers are restricted to
integers, which suffices for the argument payloads exchanged here. -/
inductive Json where
  | null : Json
  | bool (b : Bool) : Json
  | num (n : Int) : Json
  | str (s : String) : Json
  | arr (elems : List Json) : Json
  | obj (fields : List (String × Json)) : Json
deriving Repr

/-- A tool-call argument payload as received from the LLM API: either
serialized JSON text (the usual case) or an already-structured mapping. -/
inductive ArgPayload where
  | text (s : String) : ArgPayload
  | structured (d : Json) : ArgPayload
deriving Repr

/-- Embeds `tool_call.function`: the tool name and the argument payload. -/
structure ToolCallFunction where
  name : String
  arguments : ArgPayload
deriving Repr

/-- A tool call emitted by the LLM: a call identifier plus the function part. -/
structure ToolCall where
  id : String
  function : ToolCallFunction
deriving Repr

/-- Embeds `response.message`: optional text content and an optional tool-call list
(`None` in Python is `Option.none`). -/
structure ChoiceMessage where
  content : Option String
  tool_calls : Option (List ToolCall)
deriving Repr

/-- One `Choice` of a chat-completion response: the finish reason and the
assistant message. -/
structure Choice where
  finish_reason : String
  message : ChoiceMessage
deriving Repr

/-- An entry of the per-question message list.  `assistantText` is the dict
appended on the `"stop"` branch, `assistantToolMsg` is the raw
`llm_response.message` object appended at the start of
`call_tool_and_append_result`, and `tool` is the tool-result dict with its
`tool_call_id`, `name` and serialized `content`. -/
inductive Message where
  | system (content : String) : Message
  | user (content : String) : Message
  | assistantText (content : Option String) : Message
  | assistantToolMsg (msg : ChoiceMessage) : Message
  | tool (tool_call_id : String) (name : String) (content : String) : Message
deriving Repr

/-- Argument normalization before dispatch (`agent.py` lines 61-65):
`json.loads(tool_call.function.arguments)` if the payload is a string,
passthrough otherwise.  `jsonLoads` is the `json.loads` oracle; its
`Except.error` models a raised `json.JSONDecodeError`. -/
def normalizeArgs (jsonLoads : String → Except String Json) :
    ArgPayload → Except String Json
  | .text s => jsonLoads s
  | .structured d => .ok d

/-- The system prompt installed as the first message (`agent.py` line 12). -/
def SYSTEM_PROMPT : String :=
  "You are an AI assistant, who is responsable for answering the user question.\nYou can use the available tools to answer the question."

/-- The body of the `for tool_call in llm_response.message.tool_calls` loop
(`agent.py` lines 59-75), producing the tool-result messages in call order.
`jsonLoads`/`jsonDumps` are the `json` library oracles; `tools` is the
registry `self.tools` restricted to its callables — `none` models the
`KeyError` raised by `self.tools[name]` on an unknown name, and a callable's
`Except.error` models an exception raised inside the tool call.  An
`Except.error` result models the exception propagating out of
`call_tool_and_append_result` (there is no handler at this layer). -/
def dispatchCalls (jsonLoads : String → Except String Json)
    (jsonDumps : Json → String)
    (tools : String → Option (Json → Except String Json)) :
    List ToolCall → Except String (List Message)
  | [] => .ok []
  | tc :: rest =>
    match normalizeArgs jsonLoads tc.function.arguments with
    | .error e => .error e
    | .ok args =>
      match tools tc.function.name with
      | none => .error ("KeyError: " ++ tc.function.name)
      | some f =>
        match f args with
        | .error e => .error e
        | .ok result =>
          match dispatchCalls jsonLoads jsonDumps tools rest with
          | .error e => .error e
          | .ok msgs =>
            .ok (Message.tool tc.id tc.function.name (jsonDumps result) :: msgs)

/-- Embeds `Agent.call_tool_and_append_result` (`agent.py` lines 56-76): append the
assistant message carrying the tool calls, then one tool-role message per
tool call. -/
def call_tool_and_append_result (jsonLoads : String → Except String Json)
    (jsonDumps : Json → String)
    (tools : String → Option (Json → Except String Json))
    (llm_response : Choice) (messages : List Message) :
    Except String (List Message) :=
  match dispatchCalls jsonLoads jsonDumps tools
      (llm_response.message.tool_calls.getD []) with
  | .error e => .error e
  | .ok toolMsgs =>
    .ok (messages ++ Message.assistantToolMsg llm_response.message :: toolMsgs)

/-- The `"content"` entry of a message dict / the `.content` attribute of a
`ChoiceMessage`, as read by `messages[-1]["content"]`. -/
def Message.contentOf : Message → Option String
  | .system c => some c
  | .user c => some c
  | .assistantText c => c
  | .assistantToolMsg m => m.content
  | .tool _ _ c => some c

/-- Outcome of `answer_question`, instrumented with the number of LLM calls
the agent loop made and the final message list. -/
inductive AgentOutcome where
  | exhausted : AgentOutcome
  | exn (e : String) : AgentOutcome
  | answer (result : String) (llmCalls : Nat) (finalMessages : List Message) :
      AgentOutcome
deriving Repr

/-- The `while not task_finished` loop of `Agent.answer_question`
(`agent.py` lines 41-54), driven by a script of LLM responses: the `n`-th
`self.llm_call(messages)` returns the `n`-th entry of `responses` (the loop is
unbounded in the source, so an exhausted script yields the
`AgentOutcome.exhausted` artifact).  `fmt` is the `format_response` oracle
(one further LLM call, applied on the `"stop"` path to
`messages[-1]["content"]`, which is the just-appended assistant content).
`calls` counts the loop's LLM calls made so far. -/
def agentLoop (jsonLoads : String → Except String Json)
    (jsonDumps : Json → String)
    (tools : String → Option (Json → Except String Json))
    (fmt : Option String → String) :
    List Choice → List Message → Nat → AgentOutcome
  | [], _, _ => .exhausted
  | response :: rest, messages, calls =>
    if response.finish_reason = "stop" then
      let messages' := messages ++ [Message.assistantText response.message.content]
      .answer (fmt ((messages'.getLast?).bind Message.contentOf)) (calls + 1) messages'
    else
      match response.message.tool_calls with
      | some _ =>
        match call_tool_and_append_result jsonLoads jsonDumps tools response
            messages with
        | .ok messages' => agentLoop jsonLoads jsonDumps tools fmt rest messages' (calls + 1)
        | .error e => .exn e
      | none =>
        .answer ("Error: Unknown stop reason: " ++ response.finish_reason)
          (calls + 1) messages

/-- Embeds `Agent.answer_question` (`agent.py` lines 31-54): initialize the message
list with the system prompt and the user question, then run the agent loop. -/
def answer_question (jsonLoads : String → Except String Json)
    (jsonDumps : Json → String)
    (tools : String → Option (Json → Except String Json))
    (fmt : Option String → String)
    (question : String) (responses : List Choice) : AgentOutcome :=
  agentLoop jsonLoads jsonDumps tools fmt responses
    [Message.system SYSTEM_PROMPT, Message.user question] 0

/-! ## Tool functions (`tools.py`) -/

/-- The components of `urllib.parse.urlparse(url)` that the tools read:
`hostname` (lowercased host, `None` when absent), `path`, and `query`. -/
structure ParsedUrl where
  hostname : Option String
  path : String
  query : String
deriving Repr, DecidableEq

/-- Split a character list at the first `/`, `?` or `#`: the netloc part and
the remainder (which still starts with the delimiter). -/
def splitNetloc : List Char → List Char × List Char
  | [] => ([], [])
  | c :: cs =>
    if c = '/' ∨ c = '?' ∨ c = '#' then ([], c :: cs)
    else
      let (n, r) := splitNetloc cs
      (c :: n, r)

/-- Split a character list at the first occurrence of `sep`: the part before
and the part after (delimiter dropped); the whole list and `[]` if absent. -/
def splitFirst (sep : Char) : List Char → List Char × List Char
  | [] => ([], [])
  | c :: cs =>
    if c = sep then ([], cs)
    else
      let (a, b) := splitFirst sep cs
      (c :: a, b)

/-- The characters after the first `://`, `none` when there is none. -/
def afterSchemeSep : List Char → Option (List Char)
  | ':' :: '/' :: '/' :: rest => some rest
  | _ :: rest => afterSchemeSep rest
  | [] => none

/-- Models `urllib.parse.urlparse` (standard-library collaborator), for the
URL shapes the tools receive: an optional `scheme://` part, a netloc with
optional userinfo and port, then path, `?query` and `#fragment`.
The hostname is the netloc with userinfo and port stripped, lowercased,
`none` when empty; a URL without `://` has no netloc. -/
def urlparseM (url : String) : ParsedUrl :=
  match afterSchemeSep url.data with
  | none =>
    let (pq, _frag) := splitFirst '#' url.data
    let (p, q) := splitFirst '?' pq
    ⟨none, String.mk p, String.mk q⟩
  | some rest =>
    let (netloc, rem) := splitNetloc rest
    let (pq, _frag) := splitFirst '#' rem
    let (p, q) := splitFirst '?' pq
    let hostPort := (splitChar '@' netloc).getLastD []
    let host := ((splitChar ':' hostPort).headD []).map Char.toLower
    ⟨if host.isEmpty then none else some (String.mk host),
     String.mk p, String.mk q⟩

/-- Models `urllib.parse.parse_qs` with its default arguments (standard-library
collaborator), as the ordered list of (name, value) pairs, modelled for query
strings without percent-encoding or plus signs: fields are split on `&`, a
field without `=` is skipped (`strict_parsing=False`), the value is the part
after the first `=`, and empty values are skipped
(`keep_blank_values=False`). -/
def parseQsPairs (query : String) : List (String × String) :=
  (splitChar '&' query.data).filterMap fun field =>
    match splitFirstOpt '=' field with
    | none => none
    | some (k, v) =>
      if v.isEmpty then none else some (String.mk k, String.mk v)

/-- Embeds `parse_qs(query).get(name, [None])[0]`: the first value bound to `name`,
`none` when the query has no such parameter. -/
def firstQsValue (query : String) (name : String) : Option String :=
  ((parseQsPairs query).find? (fun kv => kv.1 = name)).map (·.2)

/-- The `if not video_id: return "Error: ..."` guard at `tools.py` line 229:
Python truthiness rejects both `None` and the empty string. -/
def checkVideoId : Option String → Except String String
  | none => .error "Error: Could not extract video ID from URL."
  | some v =>
    if v = "" then .error "Error: Could not extract video ID from URL." else .ok v

/-- The video-id extraction stage of `download_youtube_transcript`
(`tools.py` lines 214-230).  An `Except.error` carries the error string the
tool returns without attempting any transcript fetch. -/
def extractVideoId (u : ParsedUrl) : Except String String :=
  match u.hostname with
  | none => .error "Error: Invalid YouTube URL."
  | some h =>
    if h = "youtu.be" then
      checkVideoId (some (pyDrop u.path 1))
    else if h = "www.youtube.com" ∨ h = "youtube.com" then
      if u.path = "/watch" then
        checkVideoId (firstQsValue u.query "v")
      else if pyStartsWith u.path "/embed/" ∨ pyStartsWith u.path "/v/" then
        -- path.split("/")[2]; the startswith guard ensures index 2 exists
        checkVideoId (some ((pySplit u.path '/').getD 2 ""))
      else .error "Error: Could not extract video ID from URL."
    else .error "Error: Invalid YouTube URL."

/-- Result of the transcript-fetching stage (`tools.py` lines 233-242), an
oracle for the `youtube_transcript_api` collaborator:
the fetched segments' `"text"` fields, the
`NoTranscriptFound`/`TranscriptsDisabled` outcome, or any other exception. -/
inductive TranscriptFetch where
  | segments (texts : List String) : TranscriptFetch
  | noTranscript : TranscriptFetch
  | otherError (e : String) : TranscriptFetch
deriving Repr

/-- Embeds `download_youtube_transcript` (`tools.py` lines 211-251): extract the
video id (or return the extraction error string), fetch the transcript via
the `fetch` oracle, join the segment texts with spaces and truncate to 4000
characters; the two `except` clauses map the failure outcomes to their error
strings. -/
def download_youtube_transcript (fetch : String → TranscriptFetch)
    (u : ParsedUrl) : String :=
  match extractVideoId u with
  | .error msg => msg
  | .ok videoId =>
    match fetch videoId with
    | .segments texts => pyTake (String.intercalate " " texts) 4000
    | .noTranscript =>
      "Error: No transcript found for this video or transcripts are disabled."
    | .otherError e => "An unexpected error occurred: " ++ e

/-- Embeds `read_content_from_webpage` (`tools.py` lines 47-57).  `httpGet` models
`requests.get` + `raise_for_status` (its error a `requests.RequestException`);
`getText` models `BeautifulSoup(...).get_text()`.  On failure the except
clause prints and returns the empty string. -/
def read_content_from_webpage (httpGet : String → Except String String)
    (getText : String → String) (url : String) : String :=
  match httpGet url with
  | .ok body => pyTake (getText body) 2000
  | .error _ => ""

/-- Embeds `get_wikipedia_article` (`tools.py` lines 197-208).  `findParserOutput`
models `soup.find("div", class_="mw-parser-output")` returning its text, or
`none` when no such div exists — in which case `.get_text()` on `None` raises
an `AttributeError`, which the `except requests.RequestException` clause does
not catch (modelled by `Except.error`). -/
def get_wikipedia_article (httpGet : String → Except String String)
    (findParserOutput : String → Option String) (title : String) :
    Except String String :=
  match httpGet ("https://de.wikipedia.org/wiki/" ++
      (title.replace " " "_")) with
  | .ok body =>
    match findParserOutput body with
    | some content => .ok (pyTake content 2000)
    | none => .error "AttributeError: NoneType object has no attribute get_text"
  | .error _ => .ok ""

/-- One element of `soup.select(".result")` in `search_web`, reduced to what
the tool reads: the stripped text of `.result__title` (when that sub-element
exists), the `.result__url` sub-element (its `href` attribute and stripped
text), and the stripped text of `.result__snippet`. -/
structure ResultElement where
  title : Option String
  linkEl : Option (Option String × String)
  snippet : Option String
deriving Repr, DecidableEq

/-- One entry of `search_web`'s result list: a mapping with exactly the keys
`"title"`, `"link"` and `"snippet"`. -/
structure SearchResult where
  title : String
  link : String
  snippet : String
deriving Repr, DecidableEq

/-- The link value chosen at `tools.py` line 139: the `href` attribute when
present and truthy (non-empty), otherwise the element's stripped text. -/
def linkValue : Option String × String → String
  | (some href, text) => if href = "" then text else href
  | (none, text) => text

/-- Embeds `search_web` (`tools.py` lines 115-148).  `fetch` models
`requests.get` on the DuckDuckGo URL + `raise_for_status` + the
`soup.select(".result")` scrape, returning the result elements (its error a
`requests.RequestException`, on which the tool returns `[]`).  Elements
beyond `num_results` are sliced off; an element missing its title or link
sub-element is skipped; a missing snippet becomes the empty string. -/
def search_web (fetch : String → Except String (List ResultElement))
    (search_term : String) (num_results : Nat) : List SearchResult :=
  match fetch search_term with
  | .error _ => []
  | .ok elements =>
    (elements.take num_results).filterMap fun e =>
      match e.title, e.linkEl with
      | some t, some l => some ⟨t, linkValue l, e.snippet.getD ""⟩
      | _, _ => none

/-- The parts of a `pandas.DataFrame` that the tabular-analysis tools read:
`len(df)`, `df.columns`, and the text of `df.describe()` (an opaque library
rendering). -/
structure DataFrame where
  nrows : Nat
  columns : List String
  describeText : String
deriving Repr

/-- The summary string built by both tabular-analysis tools, with the given
leading file-kind word. -/
def tableSummary (kind : String) (df : DataFrame) : String :=
  kind ++ " file loaded with " ++ toString df.nrows ++ " rows and " ++
    toString df.columns.length ++ " columns.\n" ++
    "Columns: " ++ String.intercalate ", " df.columns ++ "\n\n" ++
    "Summary statistics:\n" ++ df.describeText

/-- Embeds `analyze_excel_file` (`tools.py` lines 60-70).  `readExcel` models
`pandas.read_excel`; its `Except.error` is an exception (e.g.
`FileNotFoundError`) which — the function body having no `try`/`except` —
propagates out of the tool unchanged. -/
def analyze_excel_file (readExcel : String → Except String DataFrame)
    (file_path : String) : Except String String :=
  match readExcel file_path with
  | .error e => .error e
  | .ok df => .ok (tableSummary "Excel" df)

/-- Embeds `analyze_csv_file` (`tools.py` lines 73-83): identical to
`analyze_excel_file` (it also calls `pd.read_excel`) except for the summary's
leading word; likewise without any exception handler. -/
def analyze_csv_file (readExcel : String → Except String DataFrame)
    (file_path : String) : Except String String :=
  match readExcel file_path with
  | .error e => .error e
  | .ok df => .ok (tableSummary "CSV" df)

/-- Models `os.path.basename` (standard-library collaborator) on a POSIX path: the
part after the last `/`. -/
def basenameM (p : String) : String :=
  (pySplit p '/').getLastD ""

/-- Models `os.path.join(a, b)` (standard-library collaborator) on POSIX for two
components: `b` if absolute, otherwise `a` and `b` joined with a `/` unless
`a` is empty or already ends in `/`. -/
def pathJoinM (a b : String) : String :=
  if pyStartsWith b "/" then b
  else if a = "" ∨ pyEndsWithChar a '/' then a ++ b
  else a ++ "/" ++ b

/-- The filename chosen at `tools.py` lines 20-27: the given one when truthy
(`if not filename` rejects both `None` and `""`), else the basename of the
URL path, else `downloaded_` plus the first 8 hex digits of a fresh uuid. -/
def inferredFilename (uuidHex : String) (url : String)
    (filename : Option String) : String :=
  if (filename.getD "") = "" then
    let base := basenameM (urlparseM url).path
    if base = "" then "downloaded_" ++ pyTake uuidHex 8 else base
  else filename.getD ""

/-- Embeds `download_file_from_url` (`tools.py` lines 16-44).  `netSave` models
`requests.get(url, stream=True, timeout=30)` + `raise_for_status` + writing
the chunks to the file (given the url and the target filepath); `tempDir`
models `tempfile.gettempdir()` and `uuidHex` the `uuid.uuid4().hex` drawn for
the fallback name.  The whole body sits in a catch-all `try`/`except`, so
every failure becomes the `"Error downloading file: ..."` string and nothing
escapes. -/
def download_file_from_url (netSave : String → String → Except String Unit)
    (tempDir : String) (uuidHex : String)
    (url : String) (filename : Option String) : String :=
  match netSave url (pathJoinM tempDir (inferredFilename uuidHex url filename)) with
  | .ok _ =>
    "File downloaded to " ++ pathJoinM tempDir (inferredFilename uuidHex url filename) ++
      ". You can now process this file."
  | .error e => "Error downloading file: " ++ e

/-- The keys of the dictionary returned by `get_tool_list`
(`tools.py` lines 254-383): the registered tool names. -/
def toolRegistryNames : List String :=
  ["download_file_from_url", "read_content_from_webpage", "analyze_excel_file",
   "analyze_csv_file", "analyze_image", "search_web",
   "check_available_wikipedia_articles", "get_wikipedia_article",
   "download_youtube_transcript"]

/-! ## Observation helpers and concrete fixtures -/

/-- The (tool_call_id, name) tag of a tool-role message; `none` for any other
role.  Used to state which dispatched call a tool-result message answers. -/
def toolTag : Message → Option (String × String)
  | .tool i n _ => some (i, n)
  | _ => none

/-- Fixture: a `json.loads` oracle mapping every string to the empty object. -/
def jlX : String → Except String Json := fun _ => .ok (Json.obj [])

/-- Fixture: a `json.dumps` oracle rendering only string atoms. -/
def jdX : Json → String
  | .str s => "\"" ++ s ++ "\""
  | _ => "null"

/-- Fixture: a registry with two tools, `t1` and `t2`, echoing fixed strings. -/
def toolsX : String → Option (Json → Except String Json) := fun n =>
  if n = "t1" then some (fun _ => .ok (Json.str "r1"))
  else if n = "t2" then some (fun _ => .ok (Json.str "r2"))
  else none

/-- Fixture: a `format_response` oracle that prefixes the answer text. -/
def fmtX : Option String → String := fun c => "FMT:" ++ c.getD ""

/-- Fixture: an LLM response with finish reason `"length"` that nevertheless
carries a tool call. -/
def rLenX : Choice :=
  ⟨"length", ⟨none, some [⟨"call_1", ⟨"t1", .structured (Json.obj [])⟩⟩]⟩⟩

/-- Fixture: an LLM response with finish reason `"stop"` and text `"done"`. -/
def rStopX : Choice := ⟨"stop", ⟨some "done", none⟩⟩

/-- Fixture: a response with finish reason `"tool_calls"` carrying two calls. -/
def rToolsX : Choice :=
  ⟨"tool_calls", ⟨none, some
    [⟨"call_1", ⟨"t1", .structured (Json.obj [])⟩⟩,
     ⟨"call_2", ⟨"t2", .text "{}"⟩⟩]⟩⟩

/-- Fixture: a `pandas.read_excel` oracle over an empty file system — every
path raises `FileNotFoundError`, exactly as the real library does. -/
def readExcelMissing : String → Except String DataFrame :=
  fun p => .error ("FileNotFoundError: [Errno 2] No such file or directory: " ++ p)

/-! ## Helper lemmas -/

theorem pyTake_length_le (s : String) (n : Nat) : (pyTake s n).length ≤ n := by
  have h : (pyTake s n).length = (s.data.take n).length := rfl
  rw [h, List.length_take]
  exact Nat.min_le_left _ _

/-- On success, the dispatch loop produces exactly one tool-role message per
tool call, in call order, tagged with the call's identifier and tool name. -/
theorem dispatchCalls_ok_tags {jl : String → Except String Json}
    {jd : Json → String} {tools : String → Option (Json → Except String Json)}
    {tcs : List ToolCall} {msgs : List Message}
    (h : dispatchCalls jl jd tools tcs = .ok msgs) :
    msgs.map toolTag = tcs.map (fun tc => some (tc.id, tc.function.name)) := by
  induction tcs generalizing msgs with
  | nil =>
    simp only [dispatchCalls, Except.ok.injEq] at h
    subst h
    simp
  | cons tc rest ih =>
    rw [dispatchCalls] at h
    split at h
    · exact absurd h (by simp)
    · split at h
      · exact absurd h (by simp)
      · split at h
        · exact absurd h (by simp)
        · split at h
          · exact absurd h (by simp)
          · rename_i hd
            simp only [Except.ok.injEq] at h
            subst h
            simp [toolTag, ih hd]

/-- On success, `call_tool_and_append_result` only appends: the assistant
tool-call message first, then the tool-result messages in call order. -/
theorem call_tool_ok_append {jl : String → Except String Json}
    {jd : Json → String} {tools : String → Option (Json → Except String Json)}
    {r : Choice} {messages msgs' : List Message}
    (h : call_tool_and_append_result jl jd tools r messages = .ok msgs') :
    ∃ toolMsgs : List Message,
      msgs' = messages ++ Message.assistantToolMsg r.message :: toolMsgs ∧
      toolMsgs.map toolTag =
        (r.message.tool_calls.getD []).map (fun tc => some (tc.id, tc.function.name)) := by
  rw [call_tool_and_append_result] at h
  cases hd : dispatchCalls jl jd tools (r.message.tool_calls.getD []) with
  | error e => rw [hd] at h; exact absurd h (by simp)
  | ok toolMsgs =>
    rw [hd] at h
    simp only [Except.ok.injEq] at h
    exact ⟨toolMsgs, h.symm, dispatchCalls_ok_tags hd⟩

/-- Whenever the agent loop returns an answer, the final message list extends
the message list the loop started from. -/
theorem agentLoop_answer_extends {jl : String → Except String Json}
    {jd : Json → String} {tools : String → Option (Json → Except String Json)}
    {fmt : Option String → String} {responses : List Choice}
    {messages : List Message} {calls : Nat} {res : String} {n : Nat}
    {final : List Message}
    (h : agentLoop jl jd tools fmt responses messages calls = .answer res n final) :
    ∃ tail, final = messages ++ tail := by
  induction responses generalizing messages calls with
  | nil => exact absurd h (by simp [agentLoop])
  | cons r rest ih =>
    rw [agentLoop] at h
    by_cases hs : r.finish_reason = "stop"
    · rw [if_pos hs] at h
      simp only [AgentOutcome.answer.injEq] at h
      exact ⟨_, h.2.2.symm⟩
    · rw [if_neg hs] at h
      cases htc : r.message.tool_calls with
      | none =>
        rw [htc] at h
        simp only [AgentOutcome.answer.injEq] at h
        exact ⟨[], by rw [← h.2.2, List.append_nil]⟩
      | some tcs =>
        rw [htc] at h
        cases hc : call_tool_and_append_result jl jd tools r messages with
        | error e => rw [hc] at h; exact absurd h (by simp)
        | ok messages' =>
          rw [hc] at h
          obtain ⟨tail, htail⟩ := ih h
          obtain ⟨tms, hshape, _⟩ := call_tool_ok_append hc
          exact ⟨Message.assistantToolMsg r.message :: tms ++ tail, by
            rw [htail, hshape]; simp⟩

/-! ## Claim theorems -/

/-- C1: when the first LLM response has finish reason `"stop"`,
`answer_question` runs exactly one iteration of the agent loop (one loop LLM
call), appends that response's assistant text to the message list, and
returns the result of formatting that text. -/
theorem first_stop_one_iteration
    (jl : String → Except String Json) (jd : Json → String)
    (tools : String → Option (Json → Except String Json))
    (fmt : Option String → String) (question : String)
    (r : Choice) (rest : List Choice)
    (hstop : r.finish_reason = "stop") :
    answer_question jl jd tools fmt question (r :: rest) =
      .answer (fmt r.message.content) 1
        [Message.system SYSTEM_PROMPT, Message.user question,
         Message.assistantText r.message.content] := by
  simp [answer_question, agentLoop, hstop, Message.contentOf]

theorem first_stop_one_iteration_witness :
    answer_question jlX jdX toolsX fmtX "q" [rStopX] =
      .answer (fmtX (some "done")) 1
        [Message.system SYSTEM_PROMPT, Message.user "q",
         Message.assistantText (some "done")] :=
  first_stop_one_iteration jlX jdX toolsX fmtX "q" rStopX [] rfl

/-- C2: a dispatched LLM response carrying `N ≥ 1` tool calls appends, after
the assistant message, exactly `N` tool-role messages whose (identifier,
tool-name) tags match the response's tool calls pointwise, in order. -/
theorem dispatch_appends_one_result_per_call
    (jl : String → Except String Json) (jd : Json → String)
    (tools : String → Option (Json → Except String Json))
    (r : Choice) (messages msgs' : List Message) (tcs : List ToolCall)
    (htc : r.message.tool_calls = some tcs) (hN : 1 ≤ tcs.length)
    (hok : call_tool_and_append_result jl jd tools r messages = .ok msgs') :
    ∃ toolMsgs : List Message,
      msgs' = messages ++ Message.assistantToolMsg r.message :: toolMsgs ∧
      toolMsgs.length = tcs.length ∧
      toolMsgs.map toolTag = tcs.map (fun tc => some (tc.id, tc.function.name)) := by
  obtain ⟨toolMsgs, hshape, htags⟩ := call_tool_ok_append hok
  rw [htc] at htags
  refine ⟨toolMsgs, hshape, ?_, htags⟩
  have := congrArg List.length htags
  simpa using this

theorem dispatch_appends_one_result_per_call_witness :
    ∃ toolMsgs : List Message,
      ([Message.user "q", Message.assistantToolMsg rToolsX.message,
        Message.tool "call_1" "t1" "\"r1\"", Message.tool "call_2" "t2" "\"r2\""] :
          List Message) =
        [Message.user "q"] ++ Message.assistantToolMsg rToolsX.message :: toolMsgs ∧
      toolMsgs.length = 2 ∧
      toolMsgs.map toolTag = [some ("call_1", "t1"), some ("call_2", "t2")] :=
  dispatch_appends_one_result_per_call jlX jdX toolsX rToolsX
    [Message.user "q"]
    [Message.user "q", Message.assistantToolMsg rToolsX.message,
     Message.tool "call_1" "t1" "\"r1\"", Message.tool "call_2" "t2" "\"r2\""]
    (rToolsX.message.tool_calls.getD []) rfl (by decide) rfl

/-- C3 counterexample: the response `rLenX` has the unexpected finish reason
`"length"` yet carries a tool call, and on it `answer_question` does not
return `"Error: Unknown stop reason: length"`: it dispatches the tool,
appends the assistant and tool-result messages, and makes a second LLM call
(the loop branches on `tool_calls is not None`, not on the finish reason). -/
theorem unknown_reason_cx :
    rLenX.finish_reason = "length" ∧
    answer_question jlX jdX toolsX fmtX "q" [rLenX, rStopX] =
      .answer "FMT:done" 2
        [Message.system SYSTEM_PROMPT, Message.user "q",
         Message.assistantToolMsg rLenX.message,
         Message.tool "call_1" "t1" "\"r1\"",
         Message.assistantText (some "done")] ∧
    "FMT:done" ≠ "Error: Unknown stop reason: length" :=
  ⟨rfl, rfl, by decide⟩

/-- C3 amended: for every LLM response whose finish reason is not `"stop"`
and which carries no tool calls (`tool_calls` is `None`), the agent loop
returns the string `"Error: Unknown stop reason: "` followed by that finish
reason, leaving the message list unchanged and making no further LLM call or
tool dispatch (the remaining response script `rest` is arbitrary and
unused). -/
theorem unknown_reason_error_return
    (jl : String → Except String Json) (jd : Json → String)
    (tools : String → Option (Json → Except String Json))
    (fmt : Option String → String) (r : Choice) (rest : List Choice)
    (messages : List Message) (calls : Nat)
    (hns : r.finish_reason ≠ "stop") (hnt : r.message.tool_calls = none) :
    agentLoop jl jd tools fmt (r :: rest) messages calls =
      .answer ("Error: Unknown stop reason: " ++ r.finish_reason)
        (calls + 1) messages := by
  rw [agentLoop, if_neg hns, hnt]

theorem unknown_reason_error_return_witness :
    agentLoop jlX jdX toolsX fmtX [⟨"length", ⟨none, none⟩⟩] [] 0 =
      .answer ("Error: Unknown stop reason: " ++ "length") 1 [] :=
  unknown_reason_error_return jlX jdX toolsX fmtX ⟨"length", ⟨none, none⟩⟩ [] [] 0
    (by decide) rfl

/-- C4 counterexample: `analyze_excel_file` is a tool function in the
registry, yet on a file path the reading library cannot open (here: an empty
file system, where `pandas.read_excel` raises `FileNotFoundError`) the
exception propagates out of the tool unchanged — the tool body has no
`try`/`except` — so not every registry tool confines its failures to an
error-describing return value. -/
theorem tool_exception_escapes_cx :
    "analyze_excel_file" ∈ toolRegistryNames ∧
    analyze_excel_file readExcelMissing "/tmp/missing.xlsx" =
      .error "FileNotFoundError: [Errno 2] No such file or directory: /tmp/missing.xlsx" :=
  ⟨by decide, rfl⟩

/-- C4 amended: not every registry tool confines its failures to an
error-describing return value — only those whose handlers cover the failure
actually do.  `download_file_from_url`, whose whole body sits in a catch-all
`try`/`except`, always returns either the success string or an
`"Error downloading file: ..."` string; `search_web` turns a request failure
into the empty list; but the tabular-analysis tools `analyze_excel_file` and
`analyze_csv_file` have no exception handling at all, so an exception raised
by the file-reading library propagates out of them unchanged, and
`get_wikipedia_article`'s handler covers only `requests.RequestException`,
so when the fetched page lacks an `mw-parser-output` div the `AttributeError`
raised by `.get_text()` on `None` escapes the tool. -/
theorem tool_error_containment :
    (∀ (netSave : String → String → Except String Unit) (tempDir uuidHex url : String)
        (filename : Option String),
      (∃ p, download_file_from_url netSave tempDir uuidHex url filename =
          "File downloaded to " ++ p ++ ". You can now process this file.") ∨
      (∃ e, download_file_from_url netSave tempDir uuidHex url filename =
          "Error downloading file: " ++ e)) ∧
    (∀ (fetch : String → Except String (List ResultElement)) (q : String)
        (n : Nat) (e : String),
      fetch q = .error e → search_web fetch q n = []) ∧
    (∀ (readExcel : String → Except String DataFrame) (p e : String),
      readExcel p = .error e → analyze_excel_file readExcel p = .error e) ∧
    (∀ (readExcel : String → Except String DataFrame) (p e : String),
      readExcel p = .error e → analyze_csv_file readExcel p = .error e) ∧
    (∀ (httpGet : String → Except String String)
        (findParserOutput : String → Option String) (title body : String),
      httpGet ("https://de.wikipedia.org/wiki/" ++ (title.replace " " "_")) =
        .ok body →
      findParserOutput body = none →
      get_wikipedia_article httpGet findParserOutput title =
        .error "AttributeError: NoneType object has no attribute get_text") := by
  refine ⟨?_, ?_, ?_, ?_, ?_⟩
  · intro netSave tempDir uuidHex url filename
    cases h : netSave url (pathJoinM tempDir (inferredFilename uuidHex url filename)) with
    | ok u => exact Or.inl ⟨_, by rw [download_file_from_url, h]⟩
    | error e => exact Or.inr ⟨e, by rw [download_file_from_url, h]⟩
  · intro fetch q n e h
    rw [search_web, h]
  · intro readExcel p e h
    rw [analyze_excel_file, h]
  · intro readExcel p e h
    rw [analyze_csv_file, h]
  · intro httpGet findParserOutput title body h1 h2
    simp only [get_wikipedia_article, h1, h2]

theorem tool_error_containment_witness :
    search_web (fun _ => .error "ConnectionError") "anything" 5 = [] ∧
    analyze_excel_file readExcelMissing "/tmp/a.xlsx" =
      .error "FileNotFoundError: [Errno 2] No such file or directory: /tmp/a.xlsx" ∧
    analyze_csv_file readExcelMissing "/tmp/a.csv" =
      .error "FileNotFoundError: [Errno 2] No such file or directory: /tmp/a.csv" ∧
    get_wikipedia_article (fun _ => .ok "<html></html>") (fun _ => none) "Titel" =
      .error "AttributeError: NoneType object has no attribute get_text" :=
  ⟨tool_error_containment.2.1 _ "anything" 5 "ConnectionError" rfl,
   tool_error_containment.2.2.1 readExcelMissing "/tmp/a.xlsx" _ rfl,
   tool_error_containment.2.2.2.1 readExcelMissing "/tmp/a.csv" _ rfl,
   tool_error_containment.2.2.2.2 (fun _ => .ok "<html></html>") (fun _ => none)
     "Titel" "<html></html>" rfl rfl⟩

/-- C5: `download_youtube_transcript` extracts video id `"abc123"` from any
URL with host `youtu.be` and path `/abc123`; extracts `"xyz789"` from
`https://www.youtube.com/watch?v=xyz789`; and for every URL whose host is
none of the known YouTube hosts (`youtu.be`, `www.youtube.com`,
`youtube.com`) — including URLs with no host at all — it returns exactly
`"Error: Invalid YouTube URL."`, whatever the transcript oracle does. -/
theorem youtube_video_id_extraction :
    (∀ u : ParsedUrl, u.hostname = some "youtu.be" → u.path = "/abc123" →
      extractVideoId u = .ok "abc123") ∧
    extractVideoId (urlparseM "https://www.youtube.com/watch?v=xyz789") =
      .ok "xyz789" ∧
    (∀ (u : ParsedUrl) (fetch : String → TranscriptFetch),
      (∀ h, u.hostname = some h →
        h ≠ "youtu.be" ∧ h ≠ "www.youtube.com" ∧ h ≠ "youtube.com") →
      download_youtube_transcript fetch u = "Error: Invalid YouTube URL.") := by
  refine ⟨?_, rfl, ?_⟩
  · intro u hhost hpath
    obtain ⟨hostname, path, query⟩ := u
    simp only at hhost hpath
    subst hhost
    subst hpath
    rfl
  · intro u fetch hnk
    obtain ⟨hostname, path, query⟩ := u
    cases hostname with
    | none => rfl
    | some h =>
      obtain ⟨h1, h2, h3⟩ := hnk h rfl
      simp [download_youtube_transcript, extractVideoId, h1, h2, h3]

theorem youtube_video_id_extraction_witness :
    extractVideoId (urlparseM "https://youtu.be/abc123") = .ok "abc123" ∧
    download_youtube_transcript (fun _ => TranscriptFetch.noTranscript)
        (urlparseM "https://vimeo.com/123") = "Error: Invalid YouTube URL." := by
  constructor
  · exact youtube_video_id_extraction.1 (urlparseM "https://youtu.be/abc123") rfl rfl
  · refine youtube_video_id_extraction.2.2 (urlparseM "https://vimeo.com/123") _ ?_
    intro h hh
    have : some "vimeo.com" = some h := hh
    cases this
    exact ⟨by decide, by decide, by decide⟩

/-- C6: the truncating tools never return more than their stated maximum:
`read_content_from_webpage` always returns at most 2000 characters,
`get_wikipedia_article` returns at most 2000 characters whenever it returns
(rather than raising on a missing content div), and
`download_youtube_transcript` returns at most 4000 characters of transcript
text whenever the id extraction and the transcript fetch succeed — for
oracle-delivered content both shorter and longer than the limit. -/
theorem truncation_bounds :
    (∀ (httpGet : String → Except String String) (getText : String → String)
        (url : String),
      (read_content_from_webpage httpGet getText url).length ≤ 2000) ∧
    (∀ (httpGet : String → Except String String)
        (findParserOutput : String → Option String) (title s : String),
      get_wikipedia_article httpGet findParserOutput title = .ok s →
      s.length ≤ 2000) ∧
    (∀ (fetch : String → TranscriptFetch) (u : ParsedUrl) (vid : String)
        (texts : List String),
      extractVideoId u = .ok vid → fetch vid = .segments texts →
      (download_youtube_transcript fetch u).length ≤ 4000) := by
  refine ⟨?_, ?_, ?_⟩
  · intro httpGet getText url
    rw [read_content_from_webpage]
    cases httpGet url with
    | ok body => exact pyTake_length_le _ _
    | error e => exact Nat.zero_le _
  · intro httpGet findParserOutput title s h
    rw [get_wikipedia_article] at h
    split at h
    · split at h
      · simp only [Except.ok.injEq] at h
        rw [← h]
        exact pyTake_length_le _ _
      · exact absurd h (by simp)
    · simp only [Except.ok.injEq] at h
      rw [← h]
      exact Nat.zero_le _
  · intro fetch u vid texts hex hfetch
    simp only [download_youtube_transcript, hex, hfetch]
    exact pyTake_length_le _ _

theorem truncation_bounds_witness :
    (read_content_from_webpage (fun _ => .ok "page")
        (fun b => String.mk (List.replicate 5000 'a') ++ b) "http://x").length ≤ 2000 ∧
    (pyTake (String.mk (List.replicate 5000 'w')) 2000).length ≤ 2000 ∧
    (download_youtube_transcript
        (fun _ => TranscriptFetch.segments (List.replicate 3000 "seg"))
        (urlparseM "https://youtu.be/abc123")).length ≤ 4000 := by
  refine ⟨truncation_bounds.1 _ _ _, ?_, ?_⟩
  · exact truncation_bounds.2.1 (fun _ => .ok "body")
      (fun _ => some (String.mk (List.replicate 5000 'w'))) "Titel"
      (pyTake (String.mk (List.replicate 5000 'w')) 2000) rfl
  · exact truncation_bounds.2.2 _ (urlparseM "https://youtu.be/abc123") "abc123"
      (List.replicate 3000 "seg") rfl rfl

/-- C7: the argument-normalization step before dispatch parses a payload that
arrives as serialized JSON text with `json.loads`, passes an
already-structured payload through unchanged, and is idempotent: re-applying
it to any payload it has already normalized is the identity. -/
theorem argument_normalization :
    (∀ (jsonLoads : String → Except String Json) (s : String),
      normalizeArgs jsonLoads (.text s) = jsonLoads s) ∧
    (∀ (jsonLoads : String → Except String Json) (d : Json),
      normalizeArgs jsonLoads (.structured d) = .ok d) ∧
    (∀ (jsonLoads : String → Except String Json) (p : ArgPayload) (d : Json),
      normalizeArgs jsonLoads p = .ok d →
      normalizeArgs jsonLoads (.structured d) = .ok d) :=
  ⟨fun _ _ => rfl, fun _ _ => rfl, fun _ _ _ _ => rfl⟩

theorem argument_normalization_witness :
    normalizeArgs jlX (.text "{}") = jlX "{}" ∧
    normalizeArgs jlX (.structured (Json.obj [])) = .ok (Json.obj []) ∧
    normalizeArgs jlX (.structured (Json.obj [])) = .ok (Json.obj []) :=
  ⟨argument_normalization.1 jlX "{}",
   argument_normalization.2.1 jlX (Json.obj []),
   argument_normalization.2.2 jlX (.text "{}") (Json.obj []) rfl⟩

/-- C8: the per-question message list is append-only.  A successful tool
dispatch only appends — the assistant tool-call message first, then
tool-role messages answering it; whenever the agent loop returns, the final
message list extends the list the loop started from; hence the first two
messages of `answer_question`'s final list are always the fixed system
prompt followed by the user's question. -/
theorem message_list_append_only :
    (∀ (jl : String → Except String Json) (jd : Json → String)
        (tools : String → Option (Json → Except String Json))
        (r : Choice) (messages msgs' : List Message),
      call_tool_and_append_result jl jd tools r messages = .ok msgs' →
      ∃ toolMsgs, msgs' = messages ++ Message.assistantToolMsg r.message :: toolMsgs ∧
        ∀ m ∈ toolMsgs, (toolTag m).isSome = true) ∧
    (∀ (jl : String → Except String Json) (jd : Json → String)
        (tools : String → Option (Json → Except String Json))
        (fmt : Option String → String) (responses : List Choice)
        (messages : List Message) (calls : Nat) (res : String) (n : Nat)
        (final : List Message),
      agentLoop jl jd tools fmt responses messages calls = .answer res n final →
      ∃ tail, final = messages ++ tail) ∧
    (∀ (jl : String → Except String Json) (jd : Json → String)
        (tools : String → Option (Json → Except String Json))
        (fmt : Option String → String) (q : String) (responses : List Choice)
        (res : String) (n : Nat) (final : List Message),
      answer_question jl jd tools fmt q responses = .answer res n final →
      final.take 2 = [Message.system SYSTEM_PROMPT, Message.user q]) := by
  refine ⟨?_, ?_, ?_⟩
  · intro jl jd tools r messages msgs' hok
    obtain ⟨toolMsgs, hshape, htags⟩ := call_tool_ok_append hok
    refine ⟨toolMsgs, hshape, ?_⟩
    intro m hm
    have h1 : toolTag m ∈ toolMsgs.map toolTag := List.mem_map_of_mem _ hm
    rw [htags] at h1
    obtain ⟨tc, _, heq⟩ := List.mem_map.1 h1
    rw [← heq]
    rfl
  · intro jl jd tools fmt responses messages calls res n final h
    exact agentLoop_answer_extends h
  · intro jl jd tools fmt q responses res n final h
    rw [answer_question] at h
    obtain ⟨tail, htail⟩ := agentLoop_answer_extends h
    rw [htail]
    rfl

theorem message_list_append_only_witness :
    (∃ toolMsgs,
      ([Message.user "q", Message.assistantToolMsg rToolsX.message,
        Message.tool "call_1" "t1" "\"r1\"", Message.tool "call_2" "t2" "\"r2\""] :
          List Message) =
        [Message.user "q"] ++ Message.assistantToolMsg rToolsX.message :: toolMsgs ∧
      ∀ m ∈ toolMsgs, (toolTag m).isSome = true) ∧
    (∃ tail, [Message.user "q", Message.assistantText (some "done")] =
      [Message.user "q"] ++ tail) ∧
    ([Message.system SYSTEM_PROMPT, Message.user "q",
      Message.assistantText (some "done")].take 2 =
      [Message.system SYSTEM_PROMPT, Message.user "q"]) :=
  ⟨message_list_append_only.1 jlX jdX toolsX rToolsX [Message.user "q"] _ rfl,
   message_list_append_only.2.1 jlX jdX toolsX fmtX [rStopX]
     [Message.user "q"] 0 "FMT:done" 1 _ rfl,
   message_list_append_only.2.2 jlX jdX toolsX fmtX "q" [rStopX]
     "FMT:done" 1 _ rfl⟩

/-- C9: for every search term and every `num_results` `n`, `search_web`
returns at most `n` results; every returned entry (a record with exactly the
fields `title`, `link` and `snippet`) comes from one of the first `n` result
elements that had both a title and a link sub-element, carrying that
element's title, link value and snippet. -/
theorem search_web_result_shape :
    (∀ (fetch : String → Except String (List ResultElement)) (q : String)
        (n : Nat), (search_web fetch q n).length ≤ n) ∧
    (∀ (fetch : String → Except String (List ResultElement)) (q : String)
        (n : Nat) (elements : List ResultElement) (r : SearchResult),
      fetch q = .ok elements → r ∈ search_web fetch q n →
      ∃ e ∈ elements.take n, e.title = some r.title ∧
        (∃ l, e.linkEl = some l ∧ r.link = linkValue l) ∧
        r.snippet = e.snippet.getD "") := by
  constructor
  · intro fetch q n
    rw [search_web]
    cases fetch q with
    | error e => simp
    | ok elements =>
      refine le_trans (List.length_filterMap_le _ _) ?_
      rw [List.length_take]
      exact Nat.min_le_left _ _
  · intro fetch q n elements r hf hm
    rw [search_web, hf] at hm
    obtain ⟨e, he, heq⟩ := List.mem_filterMap.1 hm
    refine ⟨e, he, ?_⟩
    cases ht : e.title with
    | none => rw [ht] at heq; exact absurd heq (by simp)
    | some t =>
      cases hl : e.linkEl with
      | none =>
        simp only [ht, hl] at heq
        exact Option.noConfusion heq
      | some l =>
        simp only [ht, hl, Option.some.injEq] at heq
        subst heq
        exact ⟨rfl, ⟨l, rfl, rfl⟩, rfl⟩

theorem search_web_result_shape_witness :
    (search_web (fun _ => .ok [⟨some "T1", some (some "L1", "l.com"), some "S1"⟩])
        "query" 5).length ≤ 5 ∧
    ∃ e ∈ ([⟨some "T1", some (some "L1", "l.com"), some "S1"⟩] :
        List ResultElement).take 5,
      e.title = some (SearchResult.title ⟨"T1", "L1", "S1"⟩) ∧
      (∃ l, e.linkEl = some l ∧ SearchResult.link ⟨"T1", "L1", "S1"⟩ = linkValue l) ∧
      SearchResult.snippet ⟨"T1", "L1", "S1"⟩ = e.snippet.getD "" :=
  ⟨search_web_result_shape.1 _ "query" 5,
   search_web_result_shape.2
     (fun _ => .ok [⟨some "T1", some (some "L1", "l.com"), some "S1"⟩])
     "query" 5 [⟨some "T1", some (some "L1", "l.com"), some "S1"⟩]
     ⟨"T1", "L1", "S1"⟩ rfl (by decide)⟩

/-- C10: for a URL with host `youtu.be` and an empty path (`""` or a bare
`"/"`) and likewise for a `youtube.com`/`www.youtube.com` `/watch` URL whose
query has no `v` parameter, `download_youtube_transcript` returns
`"Error: Could not extract video ID from URL."` — the result is the same for
every transcript oracle `fetch`, i.e. no fetch is attempted. -/
theorem youtube_missing_id_error :
    (∀ (fetch : String → TranscriptFetch) (u : ParsedUrl),
      u.hostname = some "youtu.be" → (u.path = "" ∨ u.path = "/") →
      download_youtube_transcript fetch u =
        "Error: Could not extract video ID from URL.") ∧
    (∀ (fetch : String → TranscriptFetch) (u : ParsedUrl),
      (u.hostname = some "www.youtube.com" ∨ u.hostname = some "youtube.com") →
      u.path = "/watch" → firstQsValue u.query "v" = none →
      download_youtube_transcript fetch u =
        "Error: Could not extract video ID from URL.") := by
  constructor
  · intro fetch u hh hp
    obtain ⟨hostname, path, query⟩ := u
    simp only at hh hp
    subst hh
    rcases hp with hp | hp <;> subst hp <;> rfl
  · intro fetch u hh hp hv
    obtain ⟨hostname, path, query⟩ := u
    simp only at hh hp hv
    subst hp
    rcases hh with hh | hh <;> subst hh <;>
      simp [download_youtube_transcript, extractVideoId, hv, checkVideoId]

theorem youtube_missing_id_error_witness :
    download_youtube_transcript (fun _ => TranscriptFetch.noTranscript)
        (urlparseM "https://youtu.be/") =
      "Error: Could not extract video ID from URL." ∧
    download_youtube_transcript (fun _ => TranscriptFetch.noTranscript)
        (urlparseM "https://www.youtube.com/watch?t=10s") =
      "Error: Could not extract video ID from URL." :=
  ⟨youtube_missing_id_error.1 _ (urlparseM "https://youtu.be/") rfl (Or.inr rfl),
   youtube_missing_id_error.2 _ (urlparseM "https://www.youtube.com/watch?t=10s")
     (Or.inl rfl) rfl rfl⟩

end GaiaAgent
